import Mathlib

/-!
A shallow embedding of the `Connection` module of the rhea AMQP 1.0 library
(`src/lib/connection.js`), together with proofs about its behaviour.

JavaScript state mutation is embedded as explicit state passing over a `Conn`
record; a method that can `throw` returns `Conn × Option JsErr` (the first
component is the state as mutated up to the point of the throw, matching
JavaScript exception semantics in which prior assignments are not rolled back).
Collaborator modules that live outside `src/` (`endpoint.js`, `session.js`,
the codec in `frames.js`, and the node `net`/`events` machinery) are modelled
from the specification at their interface boundary; each such definition says
so in its doc comment.  Unbounded `while` loops of the source are embedded
with an explicit fuel argument; every theorem below either holds for all fuel
or supplies fuel sufficient for the loop to reach its exit condition.
-/

namespace Rhea

/-- Errors thrown by the JavaScript code.  `typeError` / `rangeError` stand for
the runtime TypeError / RangeError exceptions; the remaining constructors stand
for the four explicit `throw Error(...)` sites of `connection.js` (messages
'Open already received', 'Close already received',
'Invalid value for remote channel <rc>', '<name> received on invalid channel <ch>'). -/
inductive JsErr where
  | typeError
  | rangeError
  | openAlreadyReceived
  | closeAlreadyReceived
  | invalidRemoteChannel (rc : Nat)
  | invalidChannel (ch : Nat)
deriving DecidableEq

/-- The decoded performative carried by a frame (decoding itself is done by the
external codec `frames.js`; this core only ever inspects
`performative.remote_channel` of a begin, and dispatches on the kind). -/
inductive Performative where
  | open_p
  | close_p
  | begin_p (remote_channel : Option Nat)
  | end_p
  | attach_p
  | detach_p
  | transfer_p
  | disposition_p
  | flow_p
deriving DecidableEq

/-- A decoded frame: the 2-byte physical channel and the performative
(`frames.read_frame` result, as consumed by the routing code). -/
structure Frame where
  channel : Nat
  performative : Performative
deriving DecidableEq

/-- The six performative names for which `delegate_to_session(name)` installs a
generated handler `on_<name>` (connection.js lines 287-302). -/
inductive DelegatedName where
  | end_d
  | attach_d
  | detach_d
  | transfer_d
  | disposition_d
  | flow_d
deriving DecidableEq

/-- A callback invocation received by a Session object.  Session logic lives in
`session.js` (outside `src/`); the embedding records which callback the
connection invoked, with which frame, which is all the claims need. -/
inductive SessionEvent where
  | begin_ev (f : Frame)
  | delegated_ev (n : DelegatedName) (f : Frame)
deriving DecidableEq

/-- An outbound frame as handed to `_write_frame`: the connection writes its
own `local.open.described()` / `local.close.described()`; sessions write their
own frames (opaque to this core, tagged by a number). -/
inductive WireFrame where
  | open_w
  | close_w
  | session_w (tag : Nat)
deriving DecidableEq

/-- A byte buffer handed to `output` / `socket.write`: either raw bytes, the
8-byte protocol header written by `init`, or the encoding
`frames.write_amqp_frame(buffer, channel, frame)` (the codec is external, so
the encoded frame is kept symbolic). -/
inductive Buffer where
  | raw (bytes : List Nat)
  | header_buf
  | amqp (channel : Nat) (wf : WireFrame)
deriving DecidableEq

/-- The event context built by `_context()`: `context.connection = this` and,
when the connection has a container, `context.container = this.container`.
Connections and containers are referenced by their numeric identity. -/
structure Context where
  connection : Nat
  container : Option Nat
deriving DecidableEq

/-- An actual event delivery performed by `dispatch`: either a local
`EventEmitter.emit` (one or more local listeners ran) or a forward to the
container's own `dispatch`. -/
inductive Emit where
  | local_emit (name : String) (ctx : Context)
  | container_forward (name : String) (ctx : Context)
deriving DecidableEq

/-- Observable outputs of the frame reassembler in `input`: the one-time
parsed protocol header (`frames.read_header` on the first 8 bytes) and each
complete frame slice handed to `frames.read_frame` and dispatched. -/
inductive InputEvent where
  | header_parsed (bytes : List Nat)
  | frame_decoded (bytes : List Nat)
deriving DecidableEq

/-- The Session object as seen from the connection.  `sid` is the object
identity (heap reference), `channel` the local channel number passed to the
`Session` constructor, `begin_remote_channel` the field
`session.local.begin.remote_channel` assigned by `on_begin` for peer-initiated
sessions, `pending_out` the session's own queued outbound frames (flushed by
`Session.prototype._process`, modelled from the spec since `session.js` is not
under `src/`), `events` the log of callbacks the connection invoked on it. -/
structure Session where
  sid : Nat
  channel : Nat
  begin_remote_channel : Option Nat
  pending_out : List WireFrame
  events : List SessionEvent
deriving DecidableEq

/-- Lookup in a JavaScript object used as a map (first matching key). -/
def assoc_lookup {κ α : Type} [DecidableEq κ] : List (κ × α) → κ → Option α
  | [], _ => none
  | (k, v) :: rest, i => if k = i then some v else assoc_lookup rest i

/-- JavaScript property assignment `m[k] = v`: overwrite in place if the key
exists, otherwise add it. -/
def assoc_set {κ α : Type} [DecidableEq κ] : List (κ × α) → κ → α → List (κ × α)
  | [], k, v => [(k, v)]
  | (k1, v1) :: rest, k, v =>
      if k1 = k then (k, v) :: rest else (k1, v1) :: assoc_set rest k v

/-- Mutation of the object stored under key `k` (a JavaScript heap update seen
through the map). -/
def map_upd {κ α : Type} [DecidableEq κ] (m : List (κ × α)) (k : κ) (f : α → α) :
    List (κ × α) :=
  m.map (fun e => (e.1, if e.1 = k then f e.2 else e.2))

def keys_of {α : Type} (m : List (Nat × α)) : List Nat := m.map Prod.fst

def list_max : List Nat → Nat
  | [] => 0
  | a :: rest => Nat.max a (list_max rest)

/-- Modelled from the spec: the endpoint open/close state tracker
(`endpoint.js` is not under `src/`; the spec gives only its interface:
`open/close -> bool(did_transition)`, `need_open`/`need_close` =
"local open/close requested but not yet sent", `has_settled`, `is_open`,
`is_closed`, `remote_opened/remote_closed -> bool(valid_transition)`).
`local_open` is the recorded local intent, `open_pending`/`close_pending` the
pending-but-unsent flags, `remote_open`/`remote_close` whether the remote side
has been marked open/closed, `initialised` whether an open was ever requested. -/
structure EndpointState where
  local_open : Bool
  remote_open : Bool
  remote_close : Bool
  open_pending : Bool
  close_pending : Bool
  initialised : Bool
deriving DecidableEq

/-- Modelled from the spec: `state.open()` records local intent to open and
reports whether this was a fresh transition. -/
def ep_open (s : EndpointState) : Bool × EndpointState :=
  if s.local_open then (false, s)
  else (true, { s with local_open := true, open_pending := true, initialised := true })

/-- Modelled from the spec: `state.close()` records local intent to close and
reports whether this was a fresh transition. -/
def ep_close (s : EndpointState) : Bool × EndpointState :=
  if s.local_open then (true, { s with local_open := false, close_pending := true })
  else (false, s)

/-- Modelled from the spec: `state.need_open()` reports the
local-open-requested-but-unsent fact; the query is made exactly when the open
frame is about to be written, so it also marks the open as sent. -/
def need_open (s : EndpointState) : Bool × EndpointState :=
  (s.open_pending, { s with open_pending := false })

/-- Modelled from the spec: `state.need_close()`, symmetric to `need_open`. -/
def need_close (s : EndpointState) : Bool × EndpointState :=
  (s.close_pending, { s with close_pending := false })

/-- Modelled from the spec: `state.has_settled()` is the termination condition
of the deferred pass: no pending local transition remains to be flushed.  (The
spec requires the pass to terminate in one scheduling for a plain `open()`, so
settlement here is flush-completion of the tracked pending transitions.) -/
def has_settled (s : EndpointState) : Bool :=
  !s.open_pending && !s.close_pending

/-- Modelled from the spec: `state.remote_opened()` returns whether marking the
remote side open is a valid (first-time) transition, and marks it. -/
def remote_opened (s : EndpointState) : Bool × EndpointState :=
  if s.remote_open then (false, s) else (true, { s with remote_open := true })

/-- Modelled from the spec: `state.remote_closed()`, symmetric. -/
def remote_closed (s : EndpointState) : Bool × EndpointState :=
  if s.remote_close then (false, s) else (true, { s with remote_close := true })

/-- Modelled from the spec: `state.is_open()` — both sides currently open. -/
def ep_is_open (s : EndpointState) : Bool := s.local_open && s.remote_open

/-- Modelled from the spec: `state.is_closed()` — the endpoint was initialised
and the local side is no longer open. -/
def ep_is_closed (s : EndpointState) : Bool := s.initialised && !s.local_open

/-- The Connection state (constructor, connection.js lines 51-69, plus the
fields assigned later by `init`/`input`).  `id` models `options.id`;
`listener_counts` the per-event-name count of listeners registered through the
inherited EventEmitter; `scheduled` the number of `_process` tasks currently
sitting in the `process.nextTick` queue; `dispatch_calls` is instrumentation
recording every invocation of `dispatch` (not program state); `dispatched` the
event deliveries actually performed; `frames_written` the log of
`_write_frame` calls; `socket`/`socket_writes`/`socket_ended` the transport
handle attached by `init` and what was written/ended on it; `pending` is
`this.pending`, which is `undefined` (`none`) until `init` runs;
`previous_input`, `header_received` and `input_log` belong to the frame
reassembler in `input`. -/
structure Conn where
  id : Nat
  container : Option Nat
  listener_counts : List (String × Nat)
  state : EndpointState
  registered : Bool
  scheduled : Nat
  store : List (Nat × Session)
  next_sid : Nat
  local_channel_map : List (Nat × Nat)
  remote_channel_map : List (Nat × Nat)
  remote_open_perf : Option Performative
  remote_close_perf : Option Performative
  dispatch_calls : List (String × Context)
  dispatched : List Emit
  frames_written : List (Nat × WireFrame)
  socket : Bool
  socket_writes : List Buffer
  socket_ended : Bool
  pending : Option (List Buffer)
  previous_input : Option (List Nat)
  header_received : Bool
  input_log : List InputEvent
deriving DecidableEq

/-- The connection constructor `new Connection(options, container)`: endpoint
state fresh, channel maps empty, `registered` false, no socket, and crucially
no `this.pending` (it is only created by `init`).  Identity bookkeeping
(`options.id`, container-id generation through `util.generate_uuid`) is
delegated to the external `util.js` and passed in here. -/
def init_connection (id : Nat) (container : Option Nat) : Conn :=
  { id := id, container := container, listener_counts := [],
    state := { local_open := false, remote_open := false, remote_close := false,
               open_pending := false, close_pending := false, initialised := false },
    registered := false, scheduled := 0,
    store := [], next_sid := 0,
    local_channel_map := [], remote_channel_map := [],
    remote_open_perf := none, remote_close_perf := none,
    dispatch_calls := [], dispatched := [], frames_written := [],
    socket := false, socket_writes := [], socket_ended := false,
    pending := none, previous_input := none, header_received := false,
    input_log := [] }

/-- `Connection.prototype._context`: `context.connection = this`, plus the
container when present. -/
def _context (c : Conn) : Context := { connection := c.id, container := c.container }

/-- `this.listeners(name).length` of the inherited EventEmitter. -/
def lookup_count (m : List (String × Nat)) (name : String) : Nat :=
  (assoc_lookup m name).getD 0

/-- `Connection.prototype.dispatch` (lines 73-80): if local listeners for the
name exist, emit locally; otherwise forward to the container's dispatch when a
container exists; otherwise do nothing.  Every call is additionally recorded in
the `dispatch_calls` instrumentation log. -/
def dispatch (c : Conn) (name : String) (ctx : Context) : Conn :=
  let c1 := { c with dispatch_calls := c.dispatch_calls ++ [(name, ctx)] }
  if lookup_count c1.listener_counts name ≠ 0 then
    { c1 with dispatched := c1.dispatched ++ [Emit.local_emit name ctx] }
  else
    match c1.container with
    | some _ => { c1 with dispatched := c1.dispatched ++ [Emit.container_forward name ctx] }
    | none => c1

/-- `Connection.prototype.output` (lines 122-137).  With a socket: write every
pending buffer in order, reset `pending` to `[]`, write `buffer`, and
`socket.end()` when `is_closed()`.  Without a socket: `this.pending.push(buffer)`.
Either branch first dereferences `this.pending`, which throws a TypeError when
`init` has not yet run (`pending = undefined`). -/
def output (c : Conn) (buffer : Buffer) : Conn × Option JsErr :=
  if c.socket then
    match c.pending with
    | none => (c, some JsErr.typeError)
    | some ps =>
        ({ c with socket_writes := c.socket_writes ++ ps ++ [buffer],
                  pending := some [],
                  socket_ended := c.socket_ended || ep_is_closed c.state }, none)
  else
    match c.pending with
    | none => (c, some JsErr.typeError)
    | some ps => ({ c with pending := some (ps ++ [buffer]) }, none)

/-- `Connection.prototype._write_frame` (lines 251-256): log the frame, encode
it through the external codec into a buffer, and hand it to `output`. -/
def _write_frame (c : Conn) (channel : Nat) (wf : WireFrame) : Conn × Option JsErr :=
  output { c with frames_written := c.frames_written ++ [(channel, wf)] }
         (Buffer.amqp channel wf)

/-- `Connection.prototype._write_open` (lines 258-260). -/
def _write_open (c : Conn) : Conn × Option JsErr := _write_frame c 0 WireFrame.open_w

/-- `Connection.prototype._write_close` (lines 262-264). -/
def _write_close (c : Conn) : Conn × Option JsErr := _write_frame c 0 WireFrame.close_w

/-- `Connection.prototype._register` (lines 229-234): when not yet registered,
set the flag and queue one `_process` task on the nextTick queue. -/
def _register (c : Conn) : Conn :=
  if c.registered then c
  else { c with registered := true, scheduled := c.scheduled + 1 }

/-- `Connection.prototype.open` (lines 184-188): `if (this.state.open()) this._register();`. -/
def conn_open (c : Conn) : Conn :=
  let p := ep_open c.state
  let c1 := { c with state := p.2 }
  if p.1 then _register c1 else c1

/-- `Connection.prototype.close` (lines 189-193). -/
def conn_close (c : Conn) : Conn :=
  let p := ep_close c.state
  let c1 := { c with state := p.2 }
  if p.1 then _register c1 else c1

/-- The `while (this.local_channel_map[i]) i++` loop of `create_session`,
with explicit fuel (any JavaScript value stored in the map is a Session object,
hence truthy, so the loop condition is key presence). -/
def find_free (m : List (Nat × Nat)) : Nat → Nat → Nat
  | 0, i => i
  | fuel + 1, i => if (assoc_lookup m i).isSome then find_free m fuel (i + 1) else i

/-- The channel number `create_session` allocates: the source's while loop
always stops by `list_max (keys) + 1`, so this fuel is sufficient and the
definition equals the unbounded loop. -/
def alloc_channel (m : List (Nat × Nat)) : Nat :=
  find_free m (list_max (keys_of m) + 2) 0

/-- `Connection.prototype.create_session` (lines 201-207): allocate the lowest
channel number not in the local channel map, construct a `new Session(this, i)`
(a fresh object: fresh `sid`), store it under that key and return it. -/
def create_session (c : Conn) : Session × Conn :=
  let ch := alloc_channel c.local_channel_map
  let s : Session := { sid := c.next_sid, channel := ch, begin_remote_channel := none,
                       pending_out := [], events := [] }
  (s, { c with next_sid := c.next_sid + 1,
               store := assoc_set c.store c.next_sid s,
               local_channel_map := assoc_set c.local_channel_map ch c.next_sid })

/-- `frame.performative.remote_channel`: the property exists only on a begin
performative; reading it elsewhere yields `undefined` (`none`). -/
def remote_channel_of : Performative → Option Nat
  | .begin_p rc => rc
  | _ => none

/-- Invocation of a session callback `session.on_...(frame)`: mutate the
session object (held in the store) by appending the event to its log. -/
def add_session_event (c : Conn) (sid : Nat) (ev : SessionEvent) : Conn :=
  { c with store := map_upd c.store sid (fun s => { s with events := s.events ++ [ev] }) }

/-- `Connection.prototype.on_begin` (lines 266-278): with no remote-channel on
the performative, a peer-initiated session is created and its
`local.begin.remote_channel` set to the frame's channel; otherwise the
remote-channel value must be a key of the local channel map or the handler
throws; in both success cases `session.on_begin(frame)` runs and
`remote_channel_map[frame.channel] = session`. -/
def on_begin (c : Conn) (f : Frame) : Conn × Option JsErr :=
  match remote_channel_of f.performative with
  | none =>
      let p := create_session c
      let st1 := map_upd p.2.store p.1.sid
        (fun s => { s with begin_remote_channel := some f.channel })
      let c1 := { p.2 with store := st1 }
      let c2 := add_session_event c1 p.1.sid (SessionEvent.begin_ev f)
      ({ c2 with remote_channel_map := assoc_set c2.remote_channel_map f.channel p.1.sid },
       none)
  | some rc =>
      match assoc_lookup c.local_channel_map rc with
      | none => (c, some (JsErr.invalidRemoteChannel rc))
      | some sid =>
          let c2 := add_session_event c sid (SessionEvent.begin_ev f)
          ({ c2 with remote_channel_map := assoc_set c2.remote_channel_map f.channel sid },
           none)

/-- The handler `delegate_to_session(name)` installs as `on_<name>`
(lines 287-302): resolve the session through `remote_channel_map` by the
frame's physical channel; throw when absent, otherwise invoke exactly
`session.on_<name>(frame)`. -/
def delegate (name : DelegatedName) (c : Conn) (f : Frame) : Conn × Option JsErr :=
  match assoc_lookup c.remote_channel_map f.channel with
  | none => (c, some (JsErr.invalidChannel f.channel))
  | some sid => (add_session_event c sid (SessionEvent.delegated_ev name f), none)

/-- `Connection.prototype.on_open` (lines 209-217): a valid remote-open
transition records the performative in `remote.open`, dispatches
`connection_open` with `_context()`, and requests local open; otherwise
`throw Error('Open already received')`. -/
def on_open (c : Conn) (f : Frame) : Conn × Option JsErr :=
  let p := remote_opened c.state
  let c1 := { c with state := p.2 }
  if p.1 then
    let c2 := { c1 with remote_open_perf := some f.performative }
    let c3 := dispatch c2 "connection_open" (_context c2)
    (conn_open c3, none)
  else (c1, some JsErr.openAlreadyReceived)

/-- `Connection.prototype.on_close` (lines 219-227), symmetric to `on_open`. -/
def on_close (c : Conn) (f : Frame) : Conn × Option JsErr :=
  let p := remote_closed c.state
  let c1 := { c with state := p.2 }
  if p.1 then
    let c2 := { c1 with remote_close_perf := some f.performative }
    let c3 := dispatch c2 "connection_close" (_context c2)
    (conn_close c3, none)
  else (c1, some JsErr.closeAlreadyReceived)

/-- Exception-propagating sequencing of two mutating steps (a thrown error
aborts the rest, keeping the state reached so far). -/
def andThen (r : Conn × Option JsErr) (f : Conn → Conn × Option JsErr) :
    Conn × Option JsErr :=
  match r with
  | (c, none) => f c
  | (c, some e) => (c, some e)

/-- Flush a list of frames through `_write_frame` on one channel. -/
def write_list (c : Conn) (ch : Nat) : List WireFrame → Conn × Option JsErr
  | [] => (c, none)
  | wf :: rest => andThen (_write_frame c ch wf) (fun c1 => write_list c1 ch rest)

/-- Modelled from the spec: `Session.prototype._process` (`session.js` is not
under `src/`; the spec says each session flushes its own pending frames).  The
session writes its queued frames on its channel through the connection and
clears its queue. -/
def session_process (c : Conn) (s : Session) : Conn × Option JsErr :=
  andThen (write_list c s.channel s.pending_out) (fun c1 =>
    ({ c1 with store := map_upd c1.store s.sid (fun ss => { ss with pending_out := [] }) },
     none))

/-- The `for (var k in this.local_channel_map)` loop of `_process` (lines
242-244), iterating the map entries in key order (integer-keyed JavaScript
objects enumerate in ascending numeric order, which is the order of this
association list). -/
def process_sessions (c : Conn) : List (Nat × Nat) → Conn × Option JsErr
  | [] => (c, none)
  | (_, sid) :: rest =>
      match assoc_lookup c.store sid with
      | none => process_sessions c rest
      | some s => andThen (session_process c s) (fun c1 => process_sessions c1 rest)

/-- One iteration of the `do { ... }` body of `_process` (lines 238-247):
write the open frame on channel 0 when local open is pending-but-unsent,
process every session of the local channel map, then write the close frame on
channel 0 when local close is pending-but-unsent. -/
def process_body (c : Conn) : Conn × Option JsErr :=
  let p := need_open c.state
  let c1 := { c with state := p.2 }
  andThen (if p.1 then _write_open c1 else (c1, none)) (fun c2 =>
    andThen (process_sessions c2 c2.local_channel_map) (fun c3 =>
      let q := need_close c3.state
      let c4 := { c3 with state := q.2 }
      if q.1 then _write_close c4 else (c4, none)))

/-- The `do { ... } while (!this.state.has_settled())` loop, fuel-bounded. -/
def process_loop : Nat → Conn → Conn × Option JsErr
  | 0, c => (c, none)
  | fuel + 1, c =>
      andThen (process_body c) (fun c1 =>
        if has_settled c1.state then (c1, none) else process_loop fuel c1)

/-- `Connection.prototype._process` (lines 236-249): clear `registered`, then
run the body at least once, repeating until the state tracker reports
settlement. -/
def _process (c : Conn) (fuel : Nat) : Conn × Option JsErr :=
  process_loop (fuel + 1) { c with registered := false }

/-- `Connection.prototype.init` (lines 91-103) as far as connection state is
concerned: attach the socket, create `this.pending` as a fresh array, push the
8-byte protocol header buffer written by `frames.write_header`, and call
`open()` (the `socket.on(...)` wiring installs the `input`/`error`/`eof`
callbacks and is event-loop plumbing). -/
def conn_init (c : Conn) : Conn :=
  conn_open { c with socket := true, pending := some [Buffer.header_buf] }

/-- Reading a 4-byte big-endian unsigned integer, as `buffer.readUInt32BE`:
out-of-bounds access throws (RangeError), modelled as `none`. -/
def read_u32_be (b : List Nat) (o : Nat) : Option Nat :=
  if o + 4 ≤ b.length then
    some (b.getD o 0 * 16777216 + b.getD (o + 1) 0 * 65536 +
          b.getD (o + 2) 0 * 256 + b.getD (o + 3) 0)
  else none

/-- The `while (offset < buffer.length)` frame loop of `input` (lines
159-173), fuel-bounded: read the 4-byte size prefix, stash the unconsumed
slice as leftover when the frame is incomplete, otherwise hand the exact slice
to `frames.read_frame` and dispatch the decoded frame (recorded in
`input_log`) before parsing the next one. -/
def frame_loop : Nat → Conn → List Nat → Nat → Conn × Option JsErr
  | 0, c, _, _ => (c, none)
  | fuel + 1, c, buffer, offset =>
      if offset < buffer.length then
        match read_u32_be buffer offset with
        | none => (c, some JsErr.rangeError)
        | some frame_size =>
            if buffer.length < offset + frame_size then
              ({ c with previous_input := some (buffer.drop offset) }, none)
            else
              frame_loop fuel
                { c with input_log :=
                    c.input_log ++ [InputEvent.frame_decoded ((buffer.drop offset).take frame_size)] }
                buffer (offset + frame_size)
      else (c, none)

/-- `Connection.prototype.input` (lines 139-174).  The leftover branch of the
source reads `this.previous` — a property that is never assigned anywhere
(the leftover is stored in `this.previous_input`) — and then calls `.size()`
on it; evaluating `this.previous.size()` therefore throws a TypeError
whenever a previous chunk left leftover bytes.  Otherwise: below 8 bytes
before the header, stash the whole buffer; else parse the header once and run
the frame loop from offset 8 (offset 0 on later chunks). -/
def conn_input (c : Conn) (buff : List Nat) : Conn × Option JsErr :=
  match c.previous_input with
  | some _ => (c, some JsErr.typeError)
  | none =>
      let buffer := buff
      if c.header_received then frame_loop (buffer.length + 1) c buffer 0
      else if buffer.length < 8 then ({ c with previous_input := some buffer }, none)
      else
        frame_loop (buffer.length + 1)
          { c with header_received := true,
                   input_log := c.input_log ++ [InputEvent.header_parsed (buffer.take 8)] }
          buffer 8

/-- The operations an application / the event loop can interleave on a
connection, for stating scheduling invariants: `open()`, `close()`, and the
event loop running the next queued tick (which executes `_process` with the
given fuel when a pass is queued). -/
inductive Op where
  | op_open
  | op_close
  | op_run (fuel : Nat)

/-- The event loop dequeues and runs one queued `_process` task, if any. -/
def run_next_tick (c : Conn) (fuel : Nat) : Conn :=
  if 0 < c.scheduled then (_process { c with scheduled := c.scheduled - 1 } fuel).1
  else c

def conn_step (c : Conn) : Op → Conn
  | .op_open => conn_open c
  | .op_close => conn_close c
  | .op_run fuel => run_next_tick c fuel

/-- Creating `n` sessions in sequence. -/
def create_many : Nat → Conn → Conn
  | 0, c => c
  | n + 1, c => (create_session (create_many n c)).2

/-- Modelled from the spec: removal of the session bound to local channel `k`
(the spec's lifecycle says sessions are removed from their maps as a side
effect of the close sequence settling, which happens in session code outside
`src/`); only the local channel map entry is relevant to allocation. -/
def remove_channel (c : Conn) (k : Nat) : Conn :=
  { c with local_channel_map := c.local_channel_map.filter (fun e => e.1 ≠ k) }

/-! ## Association-map lemmas -/

theorem assoc_lookup_set_self {κ α : Type} [DecidableEq κ] (m : List (κ × α)) (k : κ) (v : α) :
    assoc_lookup (assoc_set m k v) k = some v := by
  induction m with
  | nil => simp [assoc_set, assoc_lookup]
  | cons e rest ih =>
      obtain ⟨k1, v1⟩ := e
      by_cases h : k1 = k
      · simp [assoc_set, h, assoc_lookup]
      · simp [assoc_set, h, assoc_lookup, ih]

theorem assoc_lookup_set_ne {κ α : Type} [DecidableEq κ] (m : List (κ × α)) (k : κ) (v : α)
    (j : κ) (h : j ≠ k) : assoc_lookup (assoc_set m k v) j = assoc_lookup m j := by
  induction m with
  | nil => simp [assoc_set, assoc_lookup, Ne.symm h]
  | cons e rest ih =>
      obtain ⟨k1, v1⟩ := e
      by_cases h1 : k1 = k
      · subst h1
        simp [assoc_set, assoc_lookup, Ne.symm h]
      · simp [assoc_set, assoc_lookup, h1, ih]

theorem assoc_lookup_map_upd_self {κ α : Type} [DecidableEq κ] (m : List (κ × α)) (k : κ)
    (f : α → α) : assoc_lookup (map_upd m k f) k = (assoc_lookup m k).map f := by
  induction m with
  | nil => simp [map_upd, assoc_lookup]
  | cons e rest ih =>
      obtain ⟨k1, v1⟩ := e
      by_cases h : k1 = k
      · subst h
        simp [map_upd, assoc_lookup]
      · simp only [map_upd, List.map_cons] at ih ⊢
        simp [assoc_lookup, h, ih]

theorem assoc_lookup_map_upd_ne {κ α : Type} [DecidableEq κ] (m : List (κ × α)) (k : κ)
    (f : α → α) (j : κ) (h : j ≠ k) :
    assoc_lookup (map_upd m k f) j = assoc_lookup m j := by
  induction m with
  | nil => simp [map_upd, assoc_lookup]
  | cons e rest ih =>
      obtain ⟨k1, v1⟩ := e
      by_cases h1 : k1 = k
      · subst h1
        simp only [map_upd, List.map_cons] at ih ⊢
        simp [assoc_lookup, Ne.symm h, ih]
      · simp only [map_upd, List.map_cons] at ih ⊢
        simp [assoc_lookup, h1, ih]

theorem assoc_lookup_filter_ne {α : Type} (m : List (Nat × α)) (k j : Nat) :
    assoc_lookup (m.filter (fun e => e.1 ≠ k)) j =
      if j = k then none else assoc_lookup m j := by
  induction m with
  | nil => simp [assoc_lookup]
  | cons e rest ih =>
      obtain ⟨k1, v1⟩ := e
      by_cases h1 : k1 = k
      · subst h1
        by_cases h2 : j = k1
        · subst h2
          simp only [List.filter_cons]
          simp only [ne_eq, decide_not] at ih ⊢
          simp [assoc_lookup, ih]
        · simp only [List.filter_cons]
          simp only [ne_eq, decide_not] at ih ⊢
          simp [assoc_lookup, h2, Ne.symm h2, ih]
      · by_cases h2 : k1 = j
        · subst h2
          simp only [List.filter_cons]
          simp only [ne_eq, decide_not] at ih ⊢
          simp [assoc_lookup, h1]
        · simp only [List.filter_cons]
          simp only [ne_eq, decide_not] at ih ⊢
          simp [assoc_lookup, h1, h2, ih]

theorem lookup_isSome_mem {α : Type} (m : List (Nat × α)) (i : Nat)
    (h : (assoc_lookup m i).isSome = true) : i ∈ keys_of m := by
  induction m with
  | nil => simp [assoc_lookup] at h
  | cons e rest ih =>
      obtain ⟨k1, v1⟩ := e
      by_cases h1 : k1 = i
      · simp [keys_of, h1]
      · simp only [assoc_lookup, if_neg h1] at h
        have hm := ih h
        simp only [keys_of, List.map_cons, List.mem_cons] at hm ⊢
        exact Or.inr hm

theorem mem_le_list_max (l : List Nat) (a : Nat) (h : a ∈ l) : a ≤ list_max l := by
  induction l with
  | nil => simp at h
  | cons b rest ih =>
      rcases List.mem_cons.mp h with h1 | h1
      · subst h1
        exact Nat.le_max_left a (list_max rest)
      · exact le_trans (ih h1) (Nat.le_max_right b (list_max rest))

/-! ## Channel allocation lemmas -/

theorem find_free_spec (m : List (Nat × Nat)) :
    ∀ fuel i, list_max (keys_of m) + 2 ≤ fuel + i →
      (assoc_lookup m (find_free m fuel i)).isSome = false ∧
      ∀ j, i ≤ j → j < find_free m fuel i → (assoc_lookup m j).isSome = true := by
  intro fuel
  induction fuel with
  | zero =>
      intro i hi
      constructor
      · by_contra hc
        simp only [Bool.not_eq_false] at hc
        have hmem := lookup_isSome_mem m _ hc
        have hle := mem_le_list_max _ _ hmem
        simp only [find_free] at hle
        omega
      · intro j h1 h2
        simp only [find_free] at h2
        omega
  | succ fuel ih =>
      intro i hi
      by_cases h : (assoc_lookup m i).isSome = true
      · have heq : find_free m (fuel + 1) i = find_free m fuel (i + 1) := by
          simp [find_free, h]
        have hrec := ih (i + 1) (by omega)
        rw [heq]
        refine ⟨hrec.1, ?_⟩
        intro j h1 h2
        by_cases hj : j = i
        · subst hj
          exact h
        · exact hrec.2 j (by omega) h2
      · have heq : find_free m (fuel + 1) i = i := by
          simp [find_free, h]
        rw [heq]
        refine ⟨by simpa using h, ?_⟩
        intro j h1 h2
        omega

theorem alloc_channel_spec (m : List (Nat × Nat)) :
    (assoc_lookup m (alloc_channel m)).isSome = false ∧
    ∀ j, j < alloc_channel m → (assoc_lookup m j).isSome = true := by
  have h := find_free_spec m (list_max (keys_of m) + 2) 0 (by omega)
  exact ⟨h.1, fun j h2 => h.2 j (Nat.zero_le j) h2⟩

theorem alloc_channel_unique (m : List (Nat × Nat)) (r : Nat)
    (h1 : (assoc_lookup m r).isSome = false)
    (h2 : ∀ j, j < r → (assoc_lookup m j).isSome = true) :
    alloc_channel m = r := by
  rcases Nat.lt_trichotomy (alloc_channel m) r with h | h | h
  · have := h2 _ h
    rw [(alloc_channel_spec m).1] at this
    exact absurd this (by simp)
  · exact h
  · have := (alloc_channel_spec m).2 r h
    rw [h1] at this
    exact absurd this (by simp)

/-! ## Claim theorems -/

/-- C1: the claim that `input` is chunking-independent (leftover bytes are
concatenated in front of the next chunk) is broken in the code: the leftover
branch reads `this.previous`, a property that is never assigned (the leftover
is stored in `this.previous_input`), and calls `.size()`, which Buffers do not
have, so the call after any chunk that left leftover bytes throws a TypeError.
Delivering the 8-byte protocol header followed by one 8-byte frame as a single
chunk parses the header and dispatches the frame; delivering the first byte
separately makes the second `input` call throw instead, with no leftover
concatenation; likewise a chunk ending in an incomplete frame stashes the
unconsumed slice and then the next chunk's `input` call throws. -/
theorem C1_chunking_code_bug :
    (conn_input (init_connection 1 none) [65]).2 = none ∧
    (conn_input (init_connection 1 none) [65]).1.previous_input = some [65] ∧
    conn_input (conn_input (init_connection 1 none) [65]).1
        [77, 81, 80, 0, 1, 0, 0, 0, 0, 0, 8, 2, 0, 0, 0] =
      ((conn_input (init_connection 1 none) [65]).1, some JsErr.typeError) ∧
    conn_input (init_connection 1 none)
        [65, 77, 81, 80, 0, 1, 0, 0, 0, 0, 0, 8, 2, 0, 0, 0] =
      ({ init_connection 1 none with
           header_received := true,
           input_log := [InputEvent.header_parsed [65, 77, 81, 80, 0, 1, 0, 0],
                         InputEvent.frame_decoded [0, 0, 0, 8, 2, 0, 0, 0]] }, none) ∧
    (conn_input (init_connection 1 none)
        [65, 77, 81, 80, 0, 1, 0, 0, 0, 0, 0, 8, 2, 0]).2 = none ∧
    (conn_input (init_connection 1 none)
        [65, 77, 81, 80, 0, 1, 0, 0, 0, 0, 0, 8, 2, 0]).1.previous_input =
      some [0, 0, 0, 8, 2, 0] ∧
    (conn_input (init_connection 1 none)
        [65, 77, 81, 80, 0, 1, 0, 0, 0, 0, 0, 8, 2, 0]).1.input_log =
      [InputEvent.header_parsed [65, 77, 81, 80, 0, 1, 0, 0]] ∧
    (conn_input (conn_input (init_connection 1 none)
        [65, 77, 81, 80, 0, 1, 0, 0, 0, 0, 0, 8, 2, 0]).1 [0, 0]).2 =
      some JsErr.typeError := by
  refine ⟨rfl, rfl, rfl, ?_, rfl, rfl, rfl, rfl⟩
  rfl

/-- C4: each generated handler `on_end`/`on_attach`/`on_detach`/`on_transfer`/
`on_disposition`/`on_flow` throws exactly when the remote channel map holds no
session for the frame's physical channel, and otherwise invokes exactly the
`on_<name>` callback of the session bound to that channel, leaving every other
session untouched. -/
theorem C4_delegate_routing (name : DelegatedName) (c : Conn) (f : Frame) :
    ((delegate name c f).2.isSome = true ↔
       assoc_lookup c.remote_channel_map f.channel = none) ∧
    (∀ sid s, assoc_lookup c.remote_channel_map f.channel = some sid →
       assoc_lookup c.store sid = some s →
       delegate name c f =
         ({ c with store := map_upd c.store sid (fun ss => { ss with events := ss.events ++ [SessionEvent.delegated_ev name f] }) }, none) ∧
       assoc_lookup (delegate name c f).1.store sid =
         some { s with events := s.events ++ [SessionEvent.delegated_ev name f] } ∧
       ∀ sid2, sid2 ≠ sid →
         assoc_lookup (delegate name c f).1.store sid2 = assoc_lookup c.store sid2) := by
  cases h : assoc_lookup c.remote_channel_map f.channel with
  | none =>
      refine ⟨by simp [delegate, h], ?_⟩
      intro sid s h1 h2
      simp [h] at h1
  | some sid =>
      constructor
      · simp [delegate, h]
      · intro sid1 s h1 h2
        injection h1 with h1
        subst h1
        refine ⟨by simp [delegate, h, add_session_event], ?_, ?_⟩
        · simp [delegate, h, add_session_event, assoc_lookup_map_upd_self, h2]
        · intro sid2 hne
          simp [delegate, h, add_session_event, assoc_lookup_map_upd_ne c.store _ _ sid2 hne]

/-- A concrete session and connection with a bound remote channel, used as the
witness input for C4. -/
def sess_w : Session :=
  { sid := 0, channel := 0, begin_remote_channel := none, pending_out := [], events := [] }

def conn_w : Conn :=
  { init_connection 5 none with
      store := [(0, sess_w)],
      next_sid := 1,
      local_channel_map := [(0, 0)],
      remote_channel_map := [(3, 0)] }

/-- Witness for C4 at a concrete connection: channel 3 is bound to the session
with identity 0, so `on_transfer` routes to exactly that session. -/
theorem C4_witness :
    assoc_lookup conn_w.remote_channel_map 3 = some 0 ∧
    assoc_lookup conn_w.store 0 = some sess_w ∧
    (delegate DelegatedName.transfer_d conn_w { channel := 3, performative := Performative.transfer_p } =
       ({ conn_w with store := map_upd conn_w.store 0 (fun ss => { ss with events := ss.events ++ [SessionEvent.delegated_ev DelegatedName.transfer_d { channel := 3, performative := Performative.transfer_p }] }) }, none) ∧
     assoc_lookup (delegate DelegatedName.transfer_d conn_w { channel := 3, performative := Performative.transfer_p }).1.store 0 =
       some { sess_w with events := sess_w.events ++ [SessionEvent.delegated_ev DelegatedName.transfer_d { channel := 3, performative := Performative.transfer_p }] } ∧
     ∀ sid2, sid2 ≠ 0 →
       assoc_lookup (delegate DelegatedName.transfer_d conn_w { channel := 3, performative := Performative.transfer_p }).1.store sid2 =
         assoc_lookup conn_w.store sid2) :=
  ⟨rfl, rfl,
   (C4_delegate_routing DelegatedName.transfer_d conn_w
      { channel := 3, performative := Performative.transfer_p }).2 0 sess_w rfl rfl⟩

/-- `dispatch` only appends to the event logs: every other connection field is
untouched, whichever of the three delivery branches is taken. -/
theorem dispatch_effects (c : Conn) (name : String) (ctx : Context) :
    (dispatch c name ctx).id = c.id ∧
    (dispatch c name ctx).container = c.container ∧
    (dispatch c name ctx).state = c.state ∧
    (dispatch c name ctx).remote_open_perf = c.remote_open_perf ∧
    (dispatch c name ctx).remote_close_perf = c.remote_close_perf ∧
    (dispatch c name ctx).dispatch_calls = c.dispatch_calls ++ [(name, ctx)] ∧
    (dispatch c name ctx).registered = c.registered ∧
    (dispatch c name ctx).scheduled = c.scheduled := by
  unfold dispatch
  by_cases h : lookup_count c.listener_counts name ≠ 0
  · simp [h]
  · cases hc : c.container <;> simp [h, hc]

/-- `open()` leaves the local side marked open and touches neither the
recorded remote performatives nor the dispatch log. -/
theorem conn_open_effects (c : Conn) :
    (conn_open c).state.local_open = true ∧
    (conn_open c).remote_open_perf = c.remote_open_perf ∧
    (conn_open c).remote_close_perf = c.remote_close_perf ∧
    (conn_open c).dispatch_calls = c.dispatch_calls := by
  unfold conn_open ep_open _register
  by_cases h : c.state.local_open
  · simp [h]
  · by_cases h2 : c.registered <;> simp [h, h2]

/-- `close()` leaves the local side no longer marked open and touches neither
the recorded remote performatives nor the dispatch log. -/
theorem conn_close_effects (c : Conn) :
    (conn_close c).state.local_open = false ∧
    (conn_close c).remote_open_perf = c.remote_open_perf ∧
    (conn_close c).remote_close_perf = c.remote_close_perf ∧
    (conn_close c).dispatch_calls = c.dispatch_calls := by
  unfold conn_close ep_close _register
  by_cases h : c.state.local_open
  · by_cases h2 : c.registered <;> simp [h, h2]
  · simp [h]

theorem open_branch_effects (c2 : Conn) (name : String) (ctx : Context) :
    (conn_open (dispatch c2 name ctx)).remote_open_perf = c2.remote_open_perf ∧
    (conn_open (dispatch c2 name ctx)).dispatch_calls = c2.dispatch_calls ++ [(name, ctx)] ∧
    (conn_open (dispatch c2 name ctx)).state.local_open = true := by
  obtain ⟨d1, d2, d3, d4, d5, d6, d7, d8⟩ := dispatch_effects c2 name ctx
  obtain ⟨o1, o2, o3, o4⟩ := conn_open_effects (dispatch c2 name ctx)
  exact ⟨o2.trans d4, o4.trans d6, o1⟩

theorem close_branch_effects (c2 : Conn) (name : String) (ctx : Context) :
    (conn_close (dispatch c2 name ctx)).remote_close_perf = c2.remote_close_perf ∧
    (conn_close (dispatch c2 name ctx)).dispatch_calls = c2.dispatch_calls ++ [(name, ctx)] ∧
    (conn_close (dispatch c2 name ctx)).state.local_open = false := by
  obtain ⟨d1, d2, d3, d4, d5, d6, d7, d8⟩ := dispatch_effects c2 name ctx
  obtain ⟨o1, o2, o3, o4⟩ := conn_close_effects (dispatch c2 name ctx)
  exact ⟨o3.trans d5, o4.trans d6, o1⟩

/-- C5: `on_open` (resp. `on_close`) throws exactly when the state tracker
reports the remote side already marked open (resp. closed); on a valid
transition it records the received performative in `remote.open`
(resp. `remote.close`), dispatches `connection_open` (resp.
`connection_close`) with a context referencing the connection (and its
container, when any), and requests the corresponding local open
(resp. close). -/
theorem C5_remote_open_close (c : Conn) (f : Frame) :
    ((on_open c f).2.isSome = true ↔ c.state.remote_open = true) ∧
    (c.state.remote_open = false →
       (on_open c f).2 = none ∧
       (on_open c f).1.remote_open_perf = some f.performative ∧
       (on_open c f).1.dispatch_calls =
         c.dispatch_calls ++ [("connection_open", { connection := c.id, container := c.container })] ∧
       (on_open c f).1.state.local_open = true) ∧
    ((on_close c f).2.isSome = true ↔ c.state.remote_close = true) ∧
    (c.state.remote_close = false →
       (on_close c f).2 = none ∧
       (on_close c f).1.remote_close_perf = some f.performative ∧
       (on_close c f).1.dispatch_calls =
         c.dispatch_calls ++ [("connection_close", { connection := c.id, container := c.container })] ∧
       (on_close c f).1.state.local_open = false) := by
  refine ⟨?_, ?_, ?_, ?_⟩
  · by_cases h : c.state.remote_open <;> simp [on_open, remote_opened, h]
  · intro h
    have hro : remote_opened c.state = (true, { c.state with remote_open := true }) := by
      simp [remote_opened, h]
    simp only [on_open, hro]
    refine ⟨rfl, ?_, ?_, ?_⟩
    · exact (open_branch_effects _ _ _).1
    · exact (open_branch_effects _ _ _).2.1
    · exact (open_branch_effects _ _ _).2.2
  · by_cases h : c.state.remote_close <;> simp [on_close, remote_closed, h]
  · intro h
    have hrc : remote_closed c.state = (true, { c.state with remote_close := true }) := by
      simp [remote_closed, h]
    simp only [on_close, hrc]
    refine ⟨rfl, ?_, ?_, ?_⟩
    · exact (close_branch_effects _ _ _).1
    · exact (close_branch_effects _ _ _).2.1
    · exact (close_branch_effects _ _ _).2.2

/-- Witness for C5 at a freshly constructed connection (remote side not yet
marked open or closed). -/
theorem C5_witness :
    (init_connection 4 none).state.remote_open = false ∧
    (init_connection 4 none).state.remote_close = false ∧
    ((on_open (init_connection 4 none) { channel := 0, performative := Performative.open_p }).2 = none ∧
     (on_open (init_connection 4 none) { channel := 0, performative := Performative.open_p }).1.remote_open_perf = some Performative.open_p ∧
     (on_open (init_connection 4 none) { channel := 0, performative := Performative.open_p }).1.dispatch_calls =
       (init_connection 4 none).dispatch_calls ++ [("connection_open", { connection := (init_connection 4 none).id, container := (init_connection 4 none).container })] ∧
     (on_open (init_connection 4 none) { channel := 0, performative := Performative.open_p }).1.state.local_open = true) ∧
    ((on_close (init_connection 4 none) { channel := 0, performative := Performative.close_p }).2 = none ∧
     (on_close (init_connection 4 none) { channel := 0, performative := Performative.close_p }).1.remote_close_perf = some Performative.close_p ∧
     (on_close (init_connection 4 none) { channel := 0, performative := Performative.close_p }).1.dispatch_calls =
       (init_connection 4 none).dispatch_calls ++ [("connection_close", { connection := (init_connection 4 none).id, container := (init_connection 4 none).container })] ∧
     (on_close (init_connection 4 none) { channel := 0, performative := Performative.close_p }).1.state.local_open = false) :=
  ⟨rfl, rfl,
   (C5_remote_open_close (init_connection 4 none)
      { channel := 0, performative := Performative.open_p }).2.1 rfl,
   (C5_remote_open_close (init_connection 4 none)
      { channel := 0, performative := Performative.close_p }).2.2.2 rfl⟩

/-- C7 counterexample: the claim says a buffer passed to `output()` while no
socket is attached is appended to the pending queue with nothing written; on a
freshly constructed connection (no socket attached — the only way to attach
one is `init`, which is also what creates `this.pending`) `output` instead
throws a TypeError, appending nothing: `this.pending` is still undefined. -/
theorem C7_counterexample :
    (init_connection 2 none).socket = false ∧
    output (init_connection 2 none) (Buffer.raw [1]) =
      (init_connection 2 none, some JsErr.typeError) := ⟨rfl, rfl⟩

/-- C7 (amended): `this.pending` exists only once `init` has run (which also
attaches the socket), so with no socket attached `output` throws a TypeError
(pending undefined) or — were pending initialised — would append the buffer
with nothing written; once a socket is attached, `output(buffer)` writes every
pending buffer in enqueue order, then `buffer`, then empties the pending
queue, and ends the socket after these writes exactly when the connection is
in its closed state, so no earlier-queued buffer is ever written after a
later one. -/
theorem C7_output_fifo (c : Conn) (b : Buffer) :
    (c.socket = false → c.pending = none → output c b = (c, some JsErr.typeError)) ∧
    (∀ ps, c.socket = false → c.pending = some ps →
       output c b = ({ c with pending := some (ps ++ [b]) }, none)) ∧
    (∀ ps, c.socket = true → c.pending = some ps →
       output c b = ({ c with socket_writes := c.socket_writes ++ ps ++ [b], pending := some [], socket_ended := c.socket_ended || ep_is_closed c.state }, none)) ∧
    (c.socket = true → c.pending = none → output c b = (c, some JsErr.typeError)) := by
  refine ⟨?_, ?_, ?_, ?_⟩
  · intro h1 h2
    simp [output, h1, h2]
  · intro ps h1 h2
    simp [output, h1, h2]
  · intro ps h1 h2
    simp [output, h1, h2]
  · intro h1 h2
    simp [output, h1, h2]

/-- A connection with an attached socket and one queued pending buffer, the
witness input for C7. -/
def conn_out : Conn :=
  { init_connection 6 none with socket := true, pending := some [Buffer.raw [9]] }

/-- Witness for C7: with a socket attached, the queued buffer is written
before the new one and the queue is emptied. -/
theorem C7_witness :
    conn_out.socket = true ∧ conn_out.pending = some [Buffer.raw [9]] ∧
    output conn_out (Buffer.raw [10]) =
      ({ conn_out with socket_writes := conn_out.socket_writes ++ [Buffer.raw [9]] ++ [Buffer.raw [10]], pending := some [], socket_ended := conn_out.socket_ended || ep_is_closed conn_out.state }, none) :=
  ⟨rfl, rfl, (C7_output_fifo conn_out (Buffer.raw [10])).2.2.1 [Buffer.raw [9]] rfl rfl⟩

/-- C10: with no locally registered listener for the event name and no
container, `dispatch` performs no delivery, raises no error, and leaves the
connection unchanged (only the call-instrumentation log records the call):
the event is silently discarded. -/
theorem C10_dispatch_silent_drop (c : Conn) (name : String) (ctx : Context)
    (h1 : lookup_count c.listener_counts name = 0) (h2 : c.container = none) :
    dispatch c name ctx = { c with dispatch_calls := c.dispatch_calls ++ [(name, ctx)] } ∧
    (dispatch c name ctx).dispatched = c.dispatched := by
  constructor
  · unfold dispatch
    simp [h1, h2]
  · unfold dispatch
    simp [h1, h2]

/-- Witness for C10 at a concrete connection with no listeners and no
container. -/
theorem C10_witness :
    lookup_count (init_connection 7 none).listener_counts "connection_open" = 0 ∧
    (init_connection 7 none).container = none ∧
    (dispatch (init_connection 7 none) "connection_open" { connection := 7, container := none } =
      { init_connection 7 none with
          dispatch_calls := (init_connection 7 none).dispatch_calls ++
            [("connection_open", { connection := 7, container := none })] } ∧
     (dispatch (init_connection 7 none) "connection_open"
        { connection := 7, container := none }).dispatched =
       (init_connection 7 none).dispatched) :=
  ⟨rfl, rfl, C10_dispatch_silent_drop (init_connection 7 none) "connection_open"
      { connection := 7, container := none } rfl rfl⟩

/-- Channel keys present after `n` calls of `create_session` on a fresh
connection are exactly `0 .. n-1`. -/
theorem create_many_keys : ∀ n j,
    (assoc_lookup (create_many n (init_connection 1 none)).local_channel_map j).isSome = true
      ↔ j < n := by
  intro n
  induction n with
  | zero =>
      intro j
      simp [create_many, init_connection, assoc_lookup]
  | succ n ih =>
      intro j
      have halloc : alloc_channel (create_many n (init_connection 1 none)).local_channel_map = n := by
        apply alloc_channel_unique
        · have h := ih n
          simp at h
          simp [h]
        · intro j2 hj2
          exact (ih j2).mpr hj2
      have hstep : (create_many (n + 1) (init_connection 1 none)).local_channel_map =
          assoc_set (create_many n (init_connection 1 none)).local_channel_map n
            (create_many n (init_connection 1 none)).next_sid := by
        show assoc_set (create_many n (init_connection 1 none)).local_channel_map
            (alloc_channel (create_many n (init_connection 1 none)).local_channel_map)
            (create_many n (init_connection 1 none)).next_sid = _
        rw [halloc]
      rw [hstep]
      by_cases hj : j = n
      · subst hj
        simp [assoc_lookup_set_self]
      · rw [assoc_lookup_set_ne _ _ _ _ hj, ih j]
        omega

/-- C6: `create_session()` always succeeds with no inputs: it allocates the
smallest non-negative integer that is not a key of the local channel map,
registers the new session under that key, stores the session object, and
returns it; and after creating N sessions on a fresh connection and removing
the one at channel k < N, the next `create_session` assigns channel k. -/
theorem C6_lowest_free_allocation (c : Conn) :
    (assoc_lookup c.local_channel_map (create_session c).1.channel).isSome = false ∧
    (∀ j, j < (create_session c).1.channel →
       (assoc_lookup c.local_channel_map j).isSome = true) ∧
    assoc_lookup (create_session c).2.local_channel_map (create_session c).1.channel =
      some (create_session c).1.sid ∧
    assoc_lookup (create_session c).2.store (create_session c).1.sid =
      some (create_session c).1 ∧
    (∀ N k, k < N →
       (create_session (remove_channel (create_many N (init_connection 1 none)) k)).1.channel = k) := by
  refine ⟨?_, ?_, ?_, ?_, ?_⟩
  · exact (alloc_channel_spec c.local_channel_map).1
  · exact fun j hj => (alloc_channel_spec c.local_channel_map).2 j hj
  · exact assoc_lookup_set_self _ _ _
  · exact assoc_lookup_set_self _ _ _
  · intro N k hk
    show alloc_channel (remove_channel (create_many N (init_connection 1 none)) k).local_channel_map = k
    apply alloc_channel_unique
    · show (assoc_lookup ((create_many N (init_connection 1 none)).local_channel_map.filter (fun e => e.1 ≠ k)) k).isSome = false
      rw [assoc_lookup_filter_ne]
      simp
    · intro j hj
      show (assoc_lookup ((create_many N (init_connection 1 none)).local_channel_map.filter (fun e => e.1 ≠ k)) j).isSome = true
      rw [assoc_lookup_filter_ne, if_neg (by omega : ¬ j = k)]
      exact (create_many_keys N j).mpr (by omega)

/-- A connection with channel 0 already in use, the witness input for C6. -/
def conn_c6 : Conn :=
  { init_connection 8 none with local_channel_map := [(0, 5)], next_sid := 6 }

/-- Witness for C6: on `conn_c6` the allocated channel is 1 (0 is taken), and
in the create-3-remove-1 scenario the reallocated channel is 1. -/
theorem C6_witness :
    0 < (create_session conn_c6).1.channel ∧ 1 < 3 ∧
    ((assoc_lookup conn_c6.local_channel_map (create_session conn_c6).1.channel).isSome = false ∧
     (assoc_lookup conn_c6.local_channel_map 0).isSome = true ∧
     assoc_lookup (create_session conn_c6).2.local_channel_map (create_session conn_c6).1.channel =
       some (create_session conn_c6).1.sid ∧
     assoc_lookup (create_session conn_c6).2.store (create_session conn_c6).1.sid =
       some (create_session conn_c6).1 ∧
     (create_session (remove_channel (create_many 3 (init_connection 1 none)) 1)).1.channel = 1) :=
  ⟨by decide, by decide,
   (C6_lowest_free_allocation conn_c6).1,
   (C6_lowest_free_allocation conn_c6).2.1 0 (by decide),
   (C6_lowest_free_allocation conn_c6).2.2.1,
   (C6_lowest_free_allocation conn_c6).2.2.2.1,
   (C6_lowest_free_allocation conn_c6).2.2.2.2 3 1 (by decide)⟩

/-- C3: `on_begin` with no remote-channel value on the performative creates a
new local session through `create_session`, sets that session's local begin
declaration's `remote_channel` field to the frame's physical channel, invokes
the session's own `on_begin`, and binds the remote channel map entry for the
frame's channel to it; with a remote-channel value that is a key of the local
channel map the mapped session is used (its `on_begin` invoked, the remote
entry bound to it); with a remote-channel value that is not a key, a fatal
error is thrown and nothing changes. -/
theorem C3_begin_symmetry (c : Conn) (f : Frame) :
    (remote_channel_of f.performative = none →
       (on_begin c f).2 = none ∧
       assoc_lookup (on_begin c f).1.remote_channel_map f.channel = some c.next_sid ∧
       assoc_lookup (on_begin c f).1.store c.next_sid =
         some { sid := c.next_sid, channel := alloc_channel c.local_channel_map,
                begin_remote_channel := some f.channel, pending_out := [],
                events := [SessionEvent.begin_ev f] } ∧
       assoc_lookup (on_begin c f).1.local_channel_map (alloc_channel c.local_channel_map) =
         some c.next_sid) ∧
    (∀ rc sid, remote_channel_of f.performative = some rc →
       assoc_lookup c.local_channel_map rc = some sid →
       (on_begin c f).2 = none ∧
       assoc_lookup (on_begin c f).1.remote_channel_map f.channel = some sid ∧
       (∀ s, assoc_lookup c.store sid = some s →
          assoc_lookup (on_begin c f).1.store sid =
            some { s with events := s.events ++ [SessionEvent.begin_ev f] }) ∧
       (on_begin c f).1.local_channel_map = c.local_channel_map) ∧
    (∀ rc, remote_channel_of f.performative = some rc →
       assoc_lookup c.local_channel_map rc = none →
       on_begin c f = (c, some (JsErr.invalidRemoteChannel rc))) := by
  refine ⟨?_, ?_, ?_⟩
  · intro h
    refine ⟨by simp [on_begin, h], ?_, ?_, ?_⟩
    · simp [on_begin, h, add_session_event, create_session, assoc_lookup_set_self]
    · simp [on_begin, h, add_session_event, create_session, assoc_lookup_map_upd_self,
            assoc_lookup_set_self]
    · simp [on_begin, h, add_session_event, create_session, assoc_lookup_set_self]
  · intro rc sid h hsid
    refine ⟨by simp [on_begin, h, hsid], ?_, ?_, ?_⟩
    · simp [on_begin, h, hsid, add_session_event, assoc_lookup_set_self]
    · intro s hs
      simp [on_begin, h, hsid, add_session_event, assoc_lookup_map_upd_self, hs]
    · simp [on_begin, h, hsid, add_session_event]
  · intro rc h hnone
    simp [on_begin, h, hnone]

/-- The session and connection used as the witness input for C3 (local channel
0 is bound to the session with identity 7). -/
def sess_c3 : Session :=
  { sid := 7, channel := 0, begin_remote_channel := none, pending_out := [], events := [] }

def conn_c3 : Conn :=
  { init_connection 9 none with
      local_channel_map := [(0, 7)],
      next_sid := 8,
      store := [(7, sess_c3)] }

/-- Witness for C3, exercising all three branches at concrete inputs: a
peer-initiated begin on channel 5, a begin referencing existing local channel
0, and a begin referencing the absent local channel 9. -/
theorem C3_witness :
    remote_channel_of (Performative.begin_p none) = none ∧
    remote_channel_of (Performative.begin_p (some 0)) = some 0 ∧
    assoc_lookup conn_c3.local_channel_map 0 = some 7 ∧
    assoc_lookup conn_c3.store 7 = some sess_c3 ∧
    remote_channel_of (Performative.begin_p (some 9)) = some 9 ∧
    assoc_lookup conn_c3.local_channel_map 9 = none ∧
    ((on_begin conn_c3 { channel := 5, performative := Performative.begin_p none }).2 = none ∧
     assoc_lookup (on_begin conn_c3 { channel := 5, performative := Performative.begin_p none }).1.remote_channel_map 5 = some conn_c3.next_sid ∧
     assoc_lookup (on_begin conn_c3 { channel := 5, performative := Performative.begin_p none }).1.store conn_c3.next_sid =
       some { sid := conn_c3.next_sid, channel := alloc_channel conn_c3.local_channel_map,
              begin_remote_channel := some 5, pending_out := [],
              events := [SessionEvent.begin_ev { channel := 5, performative := Performative.begin_p none }] } ∧
     assoc_lookup (on_begin conn_c3 { channel := 5, performative := Performative.begin_p none }).1.local_channel_map (alloc_channel conn_c3.local_channel_map) = some conn_c3.next_sid) ∧
    ((on_begin conn_c3 { channel := 4, performative := Performative.begin_p (some 0) }).2 = none ∧
     assoc_lookup (on_begin conn_c3 { channel := 4, performative := Performative.begin_p (some 0) }).1.remote_channel_map 4 = some 7 ∧
     (∀ s, assoc_lookup conn_c3.store 7 = some s →
        assoc_lookup (on_begin conn_c3 { channel := 4, performative := Performative.begin_p (some 0) }).1.store 7 =
          some { s with events := s.events ++ [SessionEvent.begin_ev { channel := 4, performative := Performative.begin_p (some 0) }] }) ∧
     (on_begin conn_c3 { channel := 4, performative := Performative.begin_p (some 0) }).1.local_channel_map = conn_c3.local_channel_map) ∧
    on_begin conn_c3 { channel := 4, performative := Performative.begin_p (some 9) } =
      (conn_c3, some (JsErr.invalidRemoteChannel 9)) :=
  ⟨rfl, rfl, rfl, rfl, rfl, rfl,
   (C3_begin_symmetry conn_c3 { channel := 5, performative := Performative.begin_p none }).1 rfl,
   (C3_begin_symmetry conn_c3 { channel := 4, performative := Performative.begin_p (some 0) }).2.1 0 7 rfl rfl,
   (C3_begin_symmetry conn_c3 { channel := 4, performative := Performative.begin_p (some 9) }).2.2 9 rfl rfl⟩

/-! ## Preservation of the remote channel map -/

theorem dispatch_remote_map (c : Conn) (name : String) (ctx : Context) :
    (dispatch c name ctx).remote_channel_map = c.remote_channel_map := by
  unfold dispatch
  by_cases h : lookup_count c.listener_counts name ≠ 0
  · simp [h]
  · cases hc : c.container <;> simp [h, hc]

theorem conn_open_remote_map (c : Conn) :
    (conn_open c).remote_channel_map = c.remote_channel_map := by
  unfold conn_open ep_open _register
  by_cases h : c.state.local_open
  · simp [h]
  · by_cases h2 : c.registered <;> simp [h, h2]

theorem conn_close_remote_map (c : Conn) :
    (conn_close c).remote_channel_map = c.remote_channel_map := by
  unfold conn_close ep_close _register
  by_cases h : c.state.local_open
  · by_cases h2 : c.registered <;> simp [h, h2]
  · simp [h]

theorem output_remote_map (c : Conn) (b : Buffer) :
    (output c b).1.remote_channel_map = c.remote_channel_map := by
  unfold output
  by_cases h : c.socket <;> cases hp : c.pending <;> simp [h, hp]

theorem on_open_remote_map (c : Conn) (f : Frame) :
    (on_open c f).1.remote_channel_map = c.remote_channel_map := by
  unfold on_open
  by_cases h : c.state.remote_open
  · simp [remote_opened, h]
  · simp [remote_opened, h, conn_open_remote_map, dispatch_remote_map]

theorem on_close_remote_map (c : Conn) (f : Frame) :
    (on_close c f).1.remote_channel_map = c.remote_channel_map := by
  unfold on_close
  by_cases h : c.state.remote_close
  · simp [remote_closed, h]
  · simp [remote_closed, h, conn_close_remote_map, dispatch_remote_map]

/-- C9 counterexample: the claim says `remote_channel_map[c]` is assigned at
most once over the life of a connection and that no second begin frame on the
same channel replaces the entry with a different session; two peer-initiated
begin frames carried on physical channel 5 are both accepted, and the second
rebinds channel 5 from the session with identity 0 to the distinct new session
with identity 1. -/
theorem C9_counterexample :
    assoc_lookup (on_begin (init_connection 3 none)
        { channel := 5, performative := Performative.begin_p none }).1.remote_channel_map 5 =
      some 0 ∧
    assoc_lookup (on_begin (on_begin (init_connection 3 none)
        { channel := 5, performative := Performative.begin_p none }).1
        { channel := 5, performative := Performative.begin_p none }).1.remote_channel_map 5 =
      some 1 ∧
    (on_begin (on_begin (init_connection 3 none)
        { channel := 5, performative := Performative.begin_p none }).1
        { channel := 5, performative := Performative.begin_p none }).2 = none :=
  ⟨rfl, rfl, rfl⟩

/-- C9 (amended): the entry `remote_channel_map[c]` is written only when a
begin frame carried on physical channel c itself is successfully handled — a
successful `on_begin` binds exactly the frame's channel and leaves every other
channel's binding unchanged, a failed `on_begin` changes nothing, and none of
the other operations (the six delegated handlers, `on_open`, `on_close`,
`create_session`, `output`, `open`, `close`) modify the map.  The code does
not, however, prevent a second begin frame on the same channel from replacing
the existing entry with a different session (see the counterexample). -/
theorem C9_remote_binding_per_channel (c : Conn) (f : Frame) :
    ((on_begin c f).2 = none →
       (∃ sid, assoc_lookup (on_begin c f).1.remote_channel_map f.channel = some sid) ∧
       (∀ ch, ch ≠ f.channel →
          assoc_lookup (on_begin c f).1.remote_channel_map ch =
            assoc_lookup c.remote_channel_map ch)) ∧
    ((on_begin c f).2 ≠ none → (on_begin c f).1.remote_channel_map = c.remote_channel_map) ∧
    (∀ name, (delegate name c f).1.remote_channel_map = c.remote_channel_map) ∧
    (on_open c f).1.remote_channel_map = c.remote_channel_map ∧
    (on_close c f).1.remote_channel_map = c.remote_channel_map ∧
    (create_session c).2.remote_channel_map = c.remote_channel_map ∧
    (∀ b, (output c b).1.remote_channel_map = c.remote_channel_map) ∧
    (conn_open c).remote_channel_map = c.remote_channel_map ∧
    (conn_close c).remote_channel_map = c.remote_channel_map := by
  refine ⟨?_, ?_, ?_, ?_, ?_, ?_, ?_, ?_, ?_⟩
  · intro h
    cases hrc : remote_channel_of f.performative with
    | none =>
        constructor
        · refine ⟨c.next_sid, ?_⟩
          simp [on_begin, hrc, add_session_event, create_session, assoc_lookup_set_self]
        · intro ch hch
          simp only [on_begin, hrc, add_session_event]
          exact assoc_lookup_set_ne _ _ _ _ hch
    | some rc =>
        cases hl : assoc_lookup c.local_channel_map rc with
        | none =>
            exfalso
            simp [on_begin, hrc, hl] at h
        | some sid =>
            constructor
            · refine ⟨sid, ?_⟩
              simp [on_begin, hrc, hl, add_session_event, assoc_lookup_set_self]
            · intro ch hch
              simp only [on_begin, hrc, hl, add_session_event]
              exact assoc_lookup_set_ne _ _ _ _ hch
  · intro h
    cases hrc : remote_channel_of f.performative with
    | none =>
        exfalso
        apply h
        simp [on_begin, hrc]
    | some rc =>
        cases hl : assoc_lookup c.local_channel_map rc with
        | none => simp [on_begin, hrc, hl]
        | some sid =>
            exfalso
            apply h
            simp [on_begin, hrc, hl]
  · intro name
    cases hr : assoc_lookup c.remote_channel_map f.channel <;>
      simp [delegate, hr, add_session_event]
  · exact on_open_remote_map c f
  · exact on_close_remote_map c f
  · rfl
  · intro b
    exact output_remote_map c b
  · exact conn_open_remote_map c
  · exact conn_close_remote_map c

/-- Witness for C9 at concrete inputs: a successful peer-initiated begin on
channel 5 binds channel 5 and leaves channel 4 alone; a failed begin (remote
channel 9 unknown) changes nothing. -/
theorem C9_witness :
    (on_begin (init_connection 12 none)
       { channel := 5, performative := Performative.begin_p none }).2 = none ∧
    (4 : Nat) ≠ 5 ∧
    (on_begin (init_connection 12 none)
       { channel := 5, performative := Performative.begin_p (some 9) }).2 ≠ none ∧
    ((∃ sid, assoc_lookup (on_begin (init_connection 12 none)
        { channel := 5, performative := Performative.begin_p none }).1.remote_channel_map 5 =
          some sid) ∧
     assoc_lookup (on_begin (init_connection 12 none)
        { channel := 5, performative := Performative.begin_p none }).1.remote_channel_map 4 =
       assoc_lookup (init_connection 12 none).remote_channel_map 4) ∧
    (on_begin (init_connection 12 none)
       { channel := 5, performative := Performative.begin_p (some 9) }).1.remote_channel_map =
      (init_connection 12 none).remote_channel_map :=
  ⟨rfl, by decide, by decide,
   ⟨((C9_remote_binding_per_channel (init_connection 12 none)
        { channel := 5, performative := Performative.begin_p none }).1 rfl).1,
    ((C9_remote_binding_per_channel (init_connection 12 none)
        { channel := 5, performative := Performative.begin_p none }).1 rfl).2 4 (by decide)⟩,
   (C9_remote_binding_per_channel (init_connection 12 none)
      { channel := 5, performative := Performative.begin_p (some 9) }).2.1 (by decide)⟩

/-! ## Scheduling lemmas -/

theorem andThen_sched {r : Conn × Option JsErr} {f : Conn → Conn × Option JsErr}
    {reg : Bool} {sch : Nat}
    (h1 : r.1.registered = reg ∧ r.1.scheduled = sch)
    (h2 : ∀ d, (f d).1.registered = d.registered ∧ (f d).1.scheduled = d.scheduled) :
    (andThen r f).1.registered = reg ∧ (andThen r f).1.scheduled = sch := by
  obtain ⟨c1, e⟩ := r
  cases e with
  | none =>
      have h3 := h2 c1
      exact ⟨h3.1.trans h1.1, h3.2.trans h1.2⟩
  | some err => exact h1

theorem output_sched (c : Conn) (b : Buffer) :
    (output c b).1.registered = c.registered ∧ (output c b).1.scheduled = c.scheduled := by
  unfold output
  by_cases h : c.socket <;> cases hp : c.pending <;> simp [h, hp]

theorem write_list_sched : ∀ (l : List WireFrame) (c : Conn) (ch : Nat),
    (write_list c ch l).1.registered = c.registered ∧
    (write_list c ch l).1.scheduled = c.scheduled := by
  intro l
  induction l with
  | nil => intro c ch; exact ⟨rfl, rfl⟩
  | cons wf rest ih =>
      intro c ch
      exact andThen_sched (output_sched _ _) (fun d => ih d ch)

theorem session_process_sched (c : Conn) (s : Session) :
    (session_process c s).1.registered = c.registered ∧
    (session_process c s).1.scheduled = c.scheduled :=
  andThen_sched (write_list_sched s.pending_out c s.channel) (fun _ => ⟨rfl, rfl⟩)

theorem process_sessions_sched : ∀ (entries : List (Nat × Nat)) (c : Conn),
    (process_sessions c entries).1.registered = c.registered ∧
    (process_sessions c entries).1.scheduled = c.scheduled := by
  intro entries
  induction entries with
  | nil => intro c; exact ⟨rfl, rfl⟩
  | cons e rest ih =>
      intro c
      obtain ⟨ch, sid⟩ := e
      show ((match assoc_lookup c.store sid with
             | none => process_sessions c rest
             | some s => andThen (session_process c s) fun c1 => process_sessions c1 rest)).1.registered = c.registered ∧
           ((match assoc_lookup c.store sid with
             | none => process_sessions c rest
             | some s => andThen (session_process c s) fun c1 => process_sessions c1 rest)).1.scheduled = c.scheduled
      cases hs : assoc_lookup c.store sid with
      | none => exact ih c
      | some s =>
          exact andThen_sched (session_process_sched c s) (fun d => ih d)

theorem process_body_sched (c : Conn) :
    (process_body c).1.registered = c.registered ∧
    (process_body c).1.scheduled = c.scheduled := by
  refine andThen_sched ?_ ?_
  · by_cases h : (need_open c.state).1 = true
    · rw [if_pos h]
      exact output_sched _ _
    · rw [if_neg h]
      exact ⟨rfl, rfl⟩
  · intro d
    refine andThen_sched (process_sessions_sched d.local_channel_map d) ?_
    intro d2
    by_cases h2 : (need_close d2.state).1 = true
    · rw [if_pos h2]
      exact output_sched _ _
    · rw [if_neg h2]
      exact ⟨rfl, rfl⟩

theorem process_loop_sched : ∀ (fuel : Nat) (c : Conn),
    (process_loop fuel c).1.registered = c.registered ∧
    (process_loop fuel c).1.scheduled = c.scheduled := by
  intro fuel
  induction fuel with
  | zero => intro c; exact ⟨rfl, rfl⟩
  | succ fuel ih =>
      intro c
      refine andThen_sched (process_body_sched c) ?_
      intro d
      by_cases h : has_settled d.state = true
      · rw [if_pos h]
        exact ⟨rfl, rfl⟩
      · rw [if_neg h]
        exact ih d

theorem _process_sched (c : Conn) (fuel : Nat) :
    (_process c fuel).1.registered = false ∧
    (_process c fuel).1.scheduled = c.scheduled := by
  have h := process_loop_sched (fuel + 1) { c with registered := false }
  exact ⟨h.1, h.2⟩

/-- The scheduling invariant: the nextTick queue holds exactly one pending
`_process` task when `registered` is set and none otherwise. -/
def sched_ok (c : Conn) : Prop := c.scheduled = (if c.registered then 1 else 0)

theorem register_sched_ok (c : Conn) (h : sched_ok c) : sched_ok (_register c) := by
  unfold _register
  by_cases h1 : c.registered = true
  · rw [if_pos h1]
    exact h
  · rw [if_neg h1]
    unfold sched_ok at h ⊢
    rw [if_neg h1] at h
    simp [h]

theorem conn_open_sched_ok (c : Conn) (h : sched_ok c) : sched_ok (conn_open c) := by
  unfold conn_open
  by_cases h1 : (ep_open c.state).1 = true
  · rw [if_pos h1]
    exact register_sched_ok _ h
  · rw [if_neg h1]
    exact h

theorem conn_close_sched_ok (c : Conn) (h : sched_ok c) : sched_ok (conn_close c) := by
  unfold conn_close
  by_cases h1 : (ep_close c.state).1 = true
  · rw [if_pos h1]
    exact register_sched_ok _ h
  · rw [if_neg h1]
    exact h

theorem run_next_tick_sched_ok (c : Conn) (fuel : Nat) (h : sched_ok c) :
    sched_ok (run_next_tick c fuel) := by
  unfold run_next_tick
  by_cases h1 : 0 < c.scheduled
  · rw [if_pos h1]
    have hp := _process_sched { c with scheduled := c.scheduled - 1 } fuel
    unfold sched_ok at h ⊢
    rw [hp.1, hp.2]
    simp only [Bool.false_eq_true, if_false]
    by_cases h2 : c.registered = true
    · rw [if_pos h2] at h
      simp [h]
    · rw [if_neg h2] at h
      simp [h]
  · rw [if_neg h1]
    exact h

theorem conn_step_sched_ok (c : Conn) (op : Op) (h : sched_ok c) : sched_ok (conn_step c op) := by
  cases op with
  | op_open => exact conn_open_sched_ok c h
  | op_close => exact conn_close_sched_ok c h
  | op_run fuel => exact run_next_tick_sched_ok c fuel h

theorem foldl_sched_ok : ∀ (ops : List Op) (c : Conn),
    sched_ok c → sched_ok (ops.foldl conn_step c) := by
  intro ops
  induction ops with
  | nil => intro c h; exact h
  | cons op rest ih =>
      intro c h
      exact ih _ (conn_step_sched_ok c op h)

/-- C8: along any interleaving of `open()`, `close()` and event-loop ticks
starting from a fresh connection, at most one deferred `_process` pass is ever
queued; while `registered` is set, `open()` and `close()` leave the queue
untouched (`_register` is a no-op); and a pass clears `registered` the moment
it begins running. -/
theorem C8_idempotent_scheduling :
    (∀ ops : List Op, (ops.foldl conn_step (init_connection 1 none)).scheduled ≤ 1) ∧
    (∀ c : Conn, c.registered = true →
       (conn_open c).scheduled = c.scheduled ∧
       (conn_close c).scheduled = c.scheduled ∧
       _register c = c) ∧
    (∀ c fuel, (_process c fuel).1.registered = false) := by
  refine ⟨?_, ?_, ?_⟩
  · intro ops
    have h := foldl_sched_ok ops (init_connection 1 none) (by simp [sched_ok, init_connection])
    unfold sched_ok at h
    rw [h]
    split <;> omega
  · intro c h
    refine ⟨?_, ?_, ?_⟩
    · unfold conn_open _register
      by_cases h1 : (ep_open c.state).1 = true
      · rw [if_pos h1,
           if_pos (show ({ c with state := (ep_open c.state).2 } : Conn).registered = true from h)]
      · rw [if_neg h1]
    · unfold conn_close _register
      by_cases h1 : (ep_close c.state).1 = true
      · rw [if_pos h1,
           if_pos (show ({ c with state := (ep_close c.state).2 } : Conn).registered = true from h)]
      · rw [if_neg h1]
    · unfold _register
      rw [if_pos h]
  · intro c fuel
    exact (_process_sched c fuel).1

/-- A connection with a pass already scheduled, the witness input for C8. -/
def conn_reg : Conn :=
  { init_connection 11 none with registered := true, scheduled := 1 }

/-- Witness for C8: with a pass already registered, `open()`, `close()` and
`_register` schedule nothing further. -/
theorem C8_witness :
    conn_reg.registered = true ∧
    ((conn_open conn_reg).scheduled = conn_reg.scheduled ∧
     (conn_close conn_reg).scheduled = conn_reg.scheduled ∧
     _register conn_reg = conn_reg) :=
  ⟨rfl, C8_idempotent_scheduling.2.1 conn_reg rfl⟩

/-! ## The deferred processing pass -/

/-- Flushing a frame list through `_write_frame` with a socket attached and
the pending array initialised: no exception, the frames are appended to the
frame log in order, and the endpoint state, socket, store, and local channel
map are untouched (the pending array stays initialised). -/
theorem write_list_spec : ∀ (l : List WireFrame) (c : Conn) (ch : Nat) (ps : List Buffer),
    c.socket = true → c.pending = some ps →
    (write_list c ch l).2 = none ∧
    (write_list c ch l).1.frames_written = c.frames_written ++ l.map (fun wf => (ch, wf)) ∧
    (write_list c ch l).1.state = c.state ∧
    (write_list c ch l).1.socket = true ∧
    (∃ qs, (write_list c ch l).1.pending = some qs) ∧
    (write_list c ch l).1.store = c.store ∧
    (write_list c ch l).1.local_channel_map = c.local_channel_map := by
  intro l
  induction l with
  | nil =>
      intro c ch ps h1 h2
      exact ⟨rfl, by simp [write_list], rfl, h1, ⟨ps, h2⟩, rfl, rfl⟩
  | cons wf rest ih =>
      intro c ch ps h1 h2
      have hwf : _write_frame c ch wf =
          ({ c with frames_written := c.frames_written ++ [(ch, wf)],
                    socket_writes := c.socket_writes ++ ps ++ [Buffer.amqp ch wf],
                    pending := some [],
                    socket_ended := c.socket_ended || ep_is_closed c.state }, none) := by
        simp [_write_frame, output, h1, h2]
      have hw2 : write_list c ch (wf :: rest) = write_list { c with frames_written := c.frames_written ++ [(ch, wf)], socket_writes := c.socket_writes ++ ps ++ [Buffer.amqp ch wf], pending := some [], socket_ended := c.socket_ended || ep_is_closed c.state } ch rest := by
        show andThen (_write_frame c ch wf) (fun c1 => write_list c1 ch rest) = _
        rw [hwf]
        rfl
      rw [hw2]
      have hrec := ih { c with frames_written := c.frames_written ++ [(ch, wf)], socket_writes := c.socket_writes ++ ps ++ [Buffer.amqp ch wf], pending := some [], socket_ended := c.socket_ended || ep_is_closed c.state } ch [] h1 rfl
      refine ⟨hrec.1, ?_, hrec.2.2.1, hrec.2.2.2.1, hrec.2.2.2.2.1,
              hrec.2.2.2.2.2.1, hrec.2.2.2.2.2.2⟩
      rw [hrec.2.1]
      simp

/-- When the first iteration of the do-while body raises no exception and
leaves the state settled, the loop stops after that single iteration,
whatever the fuel. -/
theorem process_loop_stop (c : Conn) (h1 : (process_body c).2 = none)
    (h2 : has_settled (process_body c).1.state = true) :
    ∀ fuel, process_loop (fuel + 1) c = ((process_body c).1, none) := by
  intro fuel
  show andThen (process_body c)
      (fun c1 => if has_settled c1.state then (c1, none) else process_loop fuel c1) = _
  cases hpb : process_body c with
  | mk c1 e =>
      rw [hpb] at h1 h2
      cases e with
      | none =>
          simp only [andThen]
          rw [if_pos h2]
      | some err => exact absurd h1 (by simp)

/-- A connection in the state reached by `init` (socket attached, header
flushed, pending array present) after `open()` and `close()` were both
requested in the same tick, owning one session (local channel `ch`, session
identity 0) whose own pending output is `l`; used to exhibit the write order
of a single deferred pass. -/
def c2_demo (ch : Nat) (l : List WireFrame) : Conn :=
  { init_connection 10 none with
      socket := true,
      pending := some [],
      state := { local_open := false, remote_open := false, remote_close := false,
                 open_pending := true, close_pending := true, initialised := true },
      store := [(0, { sid := 0, channel := ch, begin_remote_channel := none,
                      pending_out := l, events := [] })],
      next_sid := 1,
      local_channel_map := [(ch, 0)] }

/-- The state of `c2_demo` right after the pass has consumed `need_open` and
written the open frame on channel 0. -/
def c2_mid (ch : Nat) (l : List WireFrame) : Conn :=
  { id := 10, container := none, listener_counts := [],
    state := { local_open := false, remote_open := false, remote_close := false,
               open_pending := false, close_pending := true, initialised := true },
    registered := false, scheduled := 0,
    store := [(0, { sid := 0, channel := ch, begin_remote_channel := none,
                    pending_out := l, events := [] })],
    next_sid := 1,
    local_channel_map := [(ch, 0)], remote_channel_map := [],
    remote_open_perf := none, remote_close_perf := none,
    dispatch_calls := [], dispatched := [],
    frames_written := [(0, WireFrame.open_w)],
    socket := true, socket_writes := [Buffer.amqp 0 WireFrame.open_w], socket_ended := true,
    pending := some [], previous_input := none, header_received := false, input_log := [] }

/-- The body of the pass on `c2_demo`, unfolded up to the session's own flush
(everything before and after the symbolic pending list is definitional). -/
theorem process_body_demo_eq (ch : Nat) (l : List WireFrame) :
    process_body { c2_demo ch l with registered := false } =
      andThen (andThen (andThen (write_list (c2_mid ch l) ch l)
          (fun c1 => ({ c1 with store := map_upd c1.store 0 (fun ss => { ss with pending_out := [] }) }, none)))
        (fun c1 => process_sessions c1 []))
      (fun c3 => if (need_close c3.state).1 = true then _write_close { c3 with state := (need_close c3.state).2 } else ({ c3 with state := (need_close c3.state).2 }, none)) := rfl

/-- One iteration of the pass on `c2_demo` raises nothing, writes the open
frame, then the session's frames on its channel, then the close frame, and
leaves the state settled. -/
theorem process_body_demo (ch : Nat) (l : List WireFrame) :
    (process_body { c2_demo ch l with registered := false }).2 = none ∧
    (process_body { c2_demo ch l with registered := false }).1.frames_written =
      (0, WireFrame.open_w) :: (l.map (fun wf => (ch, wf)) ++ [(0, WireFrame.close_w)]) ∧
    has_settled (process_body { c2_demo ch l with registered := false }).1.state = true := by
  rw [process_body_demo_eq]
  have hw := write_list_spec l (c2_mid ch l) ch [] rfl rfl
  cases hwl : write_list (c2_mid ch l) ch l with
  | mk cw e =>
      rw [hwl] at hw
      dsimp only at hw
      obtain ⟨he, hframes, hstate, hsock, hpend, hstore, hmap⟩ := hw
      obtain ⟨qs, hqs⟩ := hpend
      cases e with
      | some err => exact absurd he (by simp)
      | none =>
          simp only [andThen, process_sessions]
          have hcond : (need_close ({ cw with store := map_upd cw.store 0 (fun ss => { ss with pending_out := [] }) } : Conn).state).1 = true := by
            simp [need_close, hstate, c2_mid]
          rw [if_pos hcond]
          refine ⟨?_, ?_, ?_⟩
          · simp [_write_close, _write_frame, output, hsock, hqs]
          · simp [_write_close, _write_frame, output, hsock, hqs, hframes, c2_mid]
          · simp [_write_close, _write_frame, output, hsock, hqs, has_settled, need_close,
                  hstate, c2_mid]

/-- C2: the deferred pass loops until the tracker reports settlement, each
iteration writing the open frame on channel 0 when local open is
pending-but-unsent, then processing every session of the local channel map,
then writing the close frame on channel 0 when local close is
pending-but-unsent.  Consequently `open()` followed synchronously by
`close()` before the pass runs leaves exactly one pass scheduled, and that
single pass writes the open frame and then the close frame — and with a
session owning pending frames, the open frame precedes the session's frames,
which precede the close frame. -/
theorem C2_coalesced_pass :
    (conn_close (conn_init (init_connection 1 none))).scheduled = 1 ∧
    (∀ fuel,
       (_process (conn_close (conn_init (init_connection 1 none))) fuel).2 = none ∧
       (_process (conn_close (conn_init (init_connection 1 none))) fuel).1.frames_written =
         [(0, WireFrame.open_w), (0, WireFrame.close_w)]) ∧
    (∀ ch l fuel,
       (_process (c2_demo ch l) fuel).2 = none ∧
       (_process (c2_demo ch l) fuel).1.frames_written =
         (0, WireFrame.open_w) :: (l.map (fun wf => (ch, wf)) ++ [(0, WireFrame.close_w)])) := by
  refine ⟨rfl, ?_, ?_⟩
  · intro fuel
    have hstop := process_loop_stop
      { conn_close (conn_init (init_connection 1 none)) with registered := false }
      (by decide) (by decide) fuel
    constructor
    · show (process_loop (fuel + 1)
          { conn_close (conn_init (init_connection 1 none)) with registered := false }).2 = none
      rw [hstop]
    · show (process_loop (fuel + 1)
          { conn_close (conn_init (init_connection 1 none)) with registered := false }).1.frames_written = _
      rw [hstop]
      decide
  · intro ch l fuel
    have hpd := process_body_demo ch l
    have hstop := process_loop_stop { c2_demo ch l with registered := false } hpd.1 hpd.2.2 fuel
    constructor
    · show (process_loop (fuel + 1) { c2_demo ch l with registered := false }).2 = none
      rw [hstop]
    · show (process_loop (fuel + 1) { c2_demo ch l with registered := false }).1.frames_written = _
      rw [hstop]
      exact hpd.2.1

end Rhea
